import Mathlib

/-!
Shallow embedding of the VTTL standalone MVP client layer
(`src/python/vttl_client.py`) and the scene orchestration layer
(`src/python/scene_controller.py`), with theorems checking the
natural-language specification against the code.

Modelling conventions:
* Python floats in the client layer are modelled as rationals (`ℚ`);
  the orchestration layer's circle/spiral geometry uses `ℝ` because it
  involves `cos`/`sin`/`π`.
* Python's built-in `round` (banker's rounding, round-half-to-even) is
  modelled by `pyRound`.
* A Python `dict` is modelled as an association list; Python dict keys
  are unique, which appears as `Nodup` hypotheses where it matters.
* Raised exceptions are modelled with `Except String`; an `.error`
  result means the Python call raised before producing any network
  send, which is faithful here because in every modelled code path an
  exception is raised before the first (uncaught) send of the call.
* Network traffic is recorded as an explicit list of outbound messages
  (`Send` for the client layer, `SCSend` for the orchestration layer).
-/

namespace VTTL

/-- Python's `round` on rationals: round half to even (banker's rounding).
Models the builtin `round(x)` used in `VTTLClient.world_to_grid`. -/
def pyRound (q : ℚ) : ℤ :=
  if q - ⌊q⌋ < 1/2 then ⌊q⌋
  else if 1/2 < q - ⌊q⌋ then ⌊q⌋ + 1
  else if ⌊q⌋ % 2 = 0 then ⌊q⌋ else ⌊q⌋ + 1

/-- Python's `str.startswith`: `startswith s p` models `s.startswith(p)`,
character-level prefix test. -/
def startswith (s p : String) : Bool := p.data.isPrefixOf s.data

/-- World position `[x, y, z]` (a Python 3-element float list). -/
structure W where
  x : ℚ
  y : ℚ
  z : ℚ
  deriving DecidableEq, Repr

/-- `GridPosition` dataclass of `vttl_client.py` (lines 13–18). -/
structure GridPosition where
  x : ℤ
  z : ℤ
  y : ℚ := 0
  facing : ℚ := 0
  deriving DecidableEq, Repr

/-- An entity record as mirrored in the client's game-state cache.
Only the fields the modelled operations read are kept. -/
structure EntityRec where
  template : String := ""
  position : W := ⟨0, 0, 0⟩
  deriving DecidableEq, Repr

/-- The game-state snapshot: the `data` payload of a state-push message.
`entities` models `game_state.get('entities', {})`, an association from
entity name to record. -/
structure GameState where
  entities : List (String × EntityRec) := []
  deriving DecidableEq, Repr

/-- Properties dictionary passed to `create_entity` (values opaque). -/
abbrev Props := List (String × String)

/-- Outbound `{action, data}` envelopes built by the command API. -/
inductive Send where
  | create_entity (name template : String) (position : W)
      (owner : Option String) (properties : Props)
  | move_entity (name : String) (to_pos : W) (animate : Bool)
  | rotate_entity (name : String) (to_pos : W) (animate : Bool)
  | delete_entity (name : String)
  | get_game_state
  | check_collisions (name : String) (position : W)
  deriving DecidableEq, Repr

namespace VTTLClient

/-- Mutable state of a `VTTLClient` instance: connection flag,
game-state cache and the shared grid size. -/
structure ClientState where
  is_connected : Bool := false
  game_state : GameState := {}
  grid_size : ℚ := 1
  deriving DecidableEq, Repr

/-- `VTTLClient._send_message` (lines 98–108): raises `RuntimeError`
when not connected, else serializes the envelope as one frame. -/
def send_message (st : ClientState) (s : Send) :
    Except String (List Send × ClientState) :=
  if st.is_connected then .ok ([s], st)
  else .error "RuntimeError: Not connected to server"

/-- `VTTLClient.check_entity_exists` (lines 144–155): membership of the
name in the cached entity mapping. -/
def check_entity_exists (st : ClientState) (name : String) : Bool :=
  (st.game_state.entities.map Prod.fst).contains name

/-- `VTTLClient.grid_to_world` (lines 343–349). -/
def grid_to_world (grid_size : ℚ) (g : GridPosition) : W :=
  ⟨(g.x : ℚ) * grid_size, g.y, (g.z : ℚ) * grid_size⟩

/-- `VTTLClient.world_to_grid` (lines 351–357): rounds x and z to the
nearest grid cell with Python `round`, passes y through unrounded. -/
def world_to_grid (grid_size : ℚ) (p : W) : GridPosition :=
  { x := pyRound (p.x / grid_size)
    z := pyRound (p.z / grid_size)
    y := p.y }

/-- `VTTLClient._handle_message` (lines 86–96): a `game_state` or
`game_state_update` message replaces the cache wholesale with the
message's `data` payload; `error` and any other type only log. -/
def handle_message (st : ClientState) (msgType : String)
    (payload : GameState) : ClientState :=
  if ["game_state", "game_state_update"].contains msgType then
    { st with game_state := payload }
  else if msgType = "error" then st
  else st

/-- `VTTLClient.create_entity` (lines 159–187): a grid position takes
precedence; with neither a grid nor a world position the position
defaults to `[0, 0, 0]`; then the create envelope is sent. -/
def create_entity (st : ClientState) (name template : String)
    (grid_pos : Option GridPosition) (position : Option W)
    (owner : Option String) (properties : Option Props) :
    Except String (List Send × ClientState) :=
  let pos : W :=
    match grid_pos with
    | some g => grid_to_world st.grid_size g
    | none =>
      match position with
      | none => ⟨0, 0, 0⟩
      | some p => p
  send_message st (Send.create_entity name template pos owner (properties.getD []))

/-- `VTTLClient.move_entity` (lines 189–212): raises `ValueError` when
neither a grid nor a world position is supplied, before any send. -/
def move_entity (st : ClientState) (name : String)
    (grid_pos : Option GridPosition) (position : Option W)
    (animate : Bool) : Except String (List Send × ClientState) :=
  match grid_pos with
  | some g =>
      send_message st (Send.move_entity name (grid_to_world st.grid_size g) animate)
  | none =>
    match position with
    | none => .error "ValueError: Either grid_pos or position must be provided"
    | some p => send_message st (Send.move_entity name p animate)

/-- `VTTLClient.rotate_entity` (lines 214–230). -/
def rotate_entity (st : ClientState) (name : String) (rotation : W)
    (animate : Bool) : Except String (List Send × ClientState) :=
  send_message st (Send.rotate_entity name rotation animate)

/-- `VTTLClient.delete_entity` (lines 255–274): returns `False` with no
send when the name is absent from the cache, else sends a delete. -/
def delete_entity (st : ClientState) (name : String) :
    Except String (Bool × List Send × ClientState) :=
  if check_entity_exists st name = false then .ok (false, [], st)
  else
    match send_message st (Send.delete_entity name) with
    | .error e => .error e
    | .ok (sends, st') => .ok (true, sends, st')

/-- Result of the collision probe (`{collisions, onTable}`). -/
structure CollisionResult where
  collisions : List String
  onTable : Bool
  deriving DecidableEq, Repr

/-- `VTTLClient.check_collisions` (lines 232–253): sends the probe,
sleeps, then returns the fixed stub `{"collisions": [], "onTable": True}`
independent of the inputs and of the cache. -/
def check_collisions (st : ClientState) (name : String) (position : W) :
    Except String (List Send × CollisionResult × ClientState) :=
  match send_message st (Send.check_collisions name position) with
  | .error e => .error e
  | .ok (sends, st') => .ok (sends, ⟨[], true⟩, st')

/-- `VTTLClient.get_game_state` (lines 300–305): sends the request,
waits briefly, returns the (unchanged, in this sequential model)
cached snapshot. -/
def get_game_state (st : ClientState) :
    Except String (List Send × GameState × ClientState) :=
  match send_message st Send.get_game_state with
  | .error e => .error e
  | .ok (sends, st') => .ok (sends, st'.game_state, st')

/-- Loop body of `VTTLClient.clear_scene` (lines 327–336): one pass over
the snapshot's keys; excluded prefixes are skipped, failures of
individual deletions are caught and logged. -/
def clear_scene_loop (st : ClientState) (names : List String)
    (exclude_prefixes : List String) : List Send × ClientState :=
  match names with
  | [] => ([], st)
  | n :: rest =>
    let should_exclude := exclude_prefixes.any (fun p => startswith n p)
    if should_exclude then clear_scene_loop st rest exclude_prefixes
    else
      match delete_entity st n with
      | .ok (_, sends, st') =>
        let r := clear_scene_loop st' rest exclude_prefixes
        (sends ++ r.1, r.2)
      | .error _ => clear_scene_loop st rest exclude_prefixes

/-- `VTTLClient.clear_scene` (lines 307–339): refreshes the snapshot,
then deletes every cached entity whose name does not start with any
excluded prefix; returns `True`. -/
def clear_scene (st : ClientState) (exclude_prefixes : List String) :
    Except String (Bool × List Send × ClientState) :=
  match get_game_state st with
  | .error e => .error e
  | .ok (sends0, _, st') =>
    let names := st'.game_state.entities.map Prod.fst
    let r := clear_scene_loop st' names exclude_prefixes
    .ok (true, sends0 ++ r.1, r.2)

end VTTLClient


namespace SceneController

/-- `Position` dataclass of `scene_controller.py` (lines 34–60). -/
structure Position where
  x : ℝ
  y : ℝ
  z : ℝ
  facing : ℝ := 0

/-- `Entity` dataclass of `scene_controller.py` (lines 63–84). -/
structure Entity where
  name : String
  entity_type : String
  position : Position
  rotation : Option Position := none
  scale : Option Position := none

/-- The orchestration layer's local entity registry (`self.entities`). -/
abbrev Registry := List (String × Entity)

/-- Outbound traffic issued through the underlying client by the
orchestration layer's methods. -/
inductive SCSend where
  | check_collisions (name : String) (position : Position)
  | move_entity (name : String) (to_pos : Position) (animate : Bool)
  | rotate_entity (name : String) (to_pos : Position) (animate : Bool)
  | delete_entity (name : String)

/-- State visible to a `SceneController`: the shared connection flag,
the underlying client's game-state cache, and the local registry. -/
structure SCState where
  connected : Bool := false
  client_cache : VTTL.GameState := {}
  entities : Registry := []

/-- `self.entities[name].position = pos` (line 302). -/
def update_position (reg : Registry) (name : String) (pos : Position) : Registry :=
  reg.map fun p => if p.1 = name then (p.1, { p.2 with position := pos }) else p

/-- `del self.entities[name]` (line 315). -/
def remove_entity (reg : Registry) (name : String) : Registry :=
  reg.filter fun p => p.1 ≠ name

/-- Rotation update of `SceneController.rotate_entity` (lines 331–336):
a missing rotation is set to the new `Position` wholesale; an existing
one has only its `x`, `y`, `z` fields overwritten (its `facing` kept). -/
def update_rotation (reg : Registry) (name : String) (rot : Position) : Registry :=
  reg.map fun p =>
    if p.1 = name then
      (p.1, { p.2 with rotation :=
        match p.2.rotation with
        | none => some rot
        | some r0 => some { r0 with x := rot.x, y := rot.y, z := rot.z } })
    else p

/-- `SceneController.check_collisions` (lines 500–506): forwards to
`VTTLClient.check_collisions` (the fixed stub) and converts any raised
exception into the same stub result. Disconnected, the client raises in
`_send_message` before sending, hence no traffic and the stub result. -/
noncomputable def check_collisions (st : SCState) (name : String)
    (position : Position) : List SCSend × VTTLClient.CollisionResult :=
  if st.connected then ([SCSend.check_collisions name position], ⟨[], true⟩)
  else ([], ⟨[], true⟩)

/-- `SceneController.move_entity` (lines 282–305): raises `ValueError`
for a name absent from the local registry (before any send); otherwise
probes collisions (log-only), forwards the move to the client and
optimistically updates the local registry. -/
noncomputable def move_entity (st : SCState) (name : String) (pos : Position)
    (animate : Bool) (check_collisions_flag : Bool) :
    Except String (List SCSend × SCState) :=
  if (st.entities.map Prod.fst).contains name = false then
    .error ("ValueError: Entity " ++ name ++ " not found")
  else
    let probe :=
      if check_collisions_flag then check_collisions st name pos
      else ([], ⟨[], true⟩)
    if st.connected then
      .ok (probe.1 ++ [SCSend.move_entity name pos animate],
           { st with entities := update_position st.entities name pos })
    else .error "RuntimeError: Not connected to server"

/-- `SceneController.delete_entity` (lines 307–318): raises `ValueError`
for a name absent from the local registry (before any send); otherwise
defers to `VTTLClient.delete_entity`, which is a no-op returning `False`
when the name is absent from the client's cache. -/
noncomputable def delete_entity (st : SCState) (name : String) :
    Except String (Bool × List SCSend × SCState) :=
  if (st.entities.map Prod.fst).contains name = false then
    .error ("ValueError: Entity " ++ name ++ " not found")
  else if (st.client_cache.entities.map Prod.fst).contains name = false then
    .ok (false, [], st)
  else if st.connected then
    .ok (true, [SCSend.delete_entity name],
         { st with entities := remove_entity st.entities name })
  else .error "RuntimeError: Not connected to server"

/-- `SceneController.rotate_entity` (lines 320–339): raises `ValueError`
for a name absent from the local registry (before any send). -/
noncomputable def rotate_entity (st : SCState) (name : String) (rot : Position)
    (animate : Bool) : Except String (List SCSend × SCState) :=
  if (st.entities.map Prod.fst).contains name = false then
    .error ("ValueError: Entity " ++ name ++ " not found")
  else if st.connected then
    .ok ([SCSend.rotate_entity name rot animate],
         { st with entities := update_rotation st.entities name rot })
  else .error "RuntimeError: Not connected to server"

/-- Loop body of `SceneController.arrange_in_circle` (lines 424–432):
entity `i` of `n` is moved to the polar position at angle
`(i / n) * 2 * π` on the circle of the given radius about the center. -/
noncomputable def arrange_in_circle_loop (st : SCState) (names : List String)
    (radius : ℝ) (center : Position) (animate : Bool) (i n : ℕ) :
    Except String (List SCSend × SCState) :=
  match names with
  | [] => .ok ([], st)
  | nm :: rest =>
    let angle : ℝ := ((i : ℝ) / (n : ℝ)) * 2 * Real.pi
    let x := center.x + radius * Real.cos angle
    let z := center.z + radius * Real.sin angle
    let pos : Position := ⟨x, center.y, z, 0⟩
    match move_entity st nm pos animate true with
    | .error e => .error e
    | .ok (s1, st') =>
      match arrange_in_circle_loop st' rest radius center animate (i + 1) n with
      | .error e => .error e
      | .ok (s2, st'') => .ok (s1 ++ s2, st'')

/-- `SceneController.arrange_in_circle` (lines 415–434): returns `False`
on an empty name list, else moves each entity to its polar position. -/
noncomputable def arrange_in_circle (st : SCState) (names : List String)
    (radius : ℝ) (center : Position) (animate : Bool) :
    Except String (Bool × List SCSend × SCState) :=
  if names.isEmpty then .ok (false, [], st)
  else
    match arrange_in_circle_loop st names radius center animate 0 names.length with
    | .error e => .error e
    | .ok (s, st') => .ok (true, s, st')

/-- Inner angle loop of `SceneController.find_safe_position`
(lines 523–533): candidates every 30 degrees on the current radius. -/
noncomputable def try_angles (st : SCState) (name : String) (pos : Position)
    (radius : ℝ) (angles : List ℕ) : List SCSend × Option Position :=
  match angles with
  | [] => ([], none)
  | a :: rest =>
    let ar : ℝ := (a : ℝ) * Real.pi / 180
    let tp : Position :=
      ⟨pos.x + radius * Real.cos ar, pos.y, pos.z + radius * Real.sin ar, 0⟩
    let probe := check_collisions st name tp
    if probe.2.collisions.isEmpty && probe.2.onTable then (probe.1, some tp)
    else
      let r := try_angles st name pos radius rest
      (probe.1 ++ r.1, r.2)

/-- Outer radius loop of `SceneController.find_safe_position`
(lines 520–533): fixed radii, stopping (`break`) past the budget. -/
noncomputable def try_radii (st : SCState) (name : String) (pos : Position)
    (search_radius : ℝ) (radii : List ℝ) : List SCSend × Option Position :=
  match radii with
  | [] => ([], none)
  | r :: rest =>
    if search_radius < r then ([], none)
    else
      let t := try_angles st name pos r
        [0, 30, 60, 90, 120, 150, 180, 210, 240, 270, 300, 330]
      match t.2 with
      | some p => (t.1, some p)
      | none =>
        let t' := try_radii st name pos search_radius rest
        (t.1 ++ t'.1, t'.2)

/-- `SceneController.find_safe_position` (lines 508–535): tries the
preferred position first, then a spiral of fixed radii `0.5, 1, 1.5, 2`
at 30-degree increments; returns the first safe candidate or `none`. -/
noncomputable def find_safe_position (st : SCState) (name : String)
    (preferred : Position) (search_radius : ℝ) :
    List SCSend × Option Position :=
  let probe := check_collisions st name preferred
  if probe.2.collisions.isEmpty && probe.2.onTable then (probe.1, some preferred)
  else
    let t := try_radii st name preferred search_radius
      [1/2, 1, 3/2, 2]
    (probe.1 ++ t.1, t.2)

end SceneController

/-- A connected client with an empty cache, used as a concrete input. -/
def connectedState : VTTLClient.ClientState := { is_connected := true }

/-- The cache of the spec's `clear_scene` example:
`{"cam_main": ..., "prop_a": ..., "mini_b": ...}`. -/
def sampleCache : GameState :=
  { entities := [("cam_main", {}), ("prop_a", {}), ("mini_b", {})] }

/-- A connected client holding `sampleCache`. -/
def sampleState : VTTLClient.ClientState :=
  { is_connected := true, game_state := sampleCache }

/-- A concrete inbound state-push payload. -/
def samplePayload : GameState := { entities := [("mini_x", {})] }

/-- A concrete orchestration-layer state with four registered entities
`a`, `b`, `c`, `d`, connected. -/
noncomputable def sampleSCState : SceneController.SCState :=
  { connected := true
    client_cache := sampleCache
    entities :=
      [("a", ⟨"a", "cube", ⟨0, 1/2, 0, 0⟩, none, none⟩),
       ("b", ⟨"b", "cube", ⟨2, 1/2, 0, 0⟩, none, none⟩),
       ("c", ⟨"c", "cube", ⟨4, 1/2, 0, 0⟩, none, none⟩),
       ("d", ⟨"d", "cube", ⟨6, 1/2, 0, 0⟩, none, none⟩)] }

/-- Observer: the move commands (name and target position) among the
orchestration layer's outbound traffic, in order. -/
def moves_of (l : List SceneController.SCSend) :
    List (String × SceneController.Position) :=
  l.filterMap fun s =>
    match s with
    | SceneController.SCSend.move_entity nm p _ => some (nm, p)
    | _ => none

/-- The polar target `arrange_in_circle` computes for index `i` of `n`:
`(c.x + r*cos((i/n)*2*pi), c.y, c.z + r*sin((i/n)*2*pi))`. -/
noncomputable def circle_target (center : SceneController.Position) (radius : ℝ)
    (i n : ℕ) : SceneController.Position :=
  ⟨center.x + radius * Real.cos (((i : ℝ) / (n : ℝ)) * 2 * Real.pi),
   center.y,
   center.z + radius * Real.sin (((i : ℝ) / (n : ℝ)) * 2 * Real.pi), 0⟩

end VTTL

namespace VTTL

/-- `pyRound` agrees with the identity on integers (Python `round` of an
exact integer value). -/
theorem pyRound_intCast (n : ℤ) : pyRound (n : ℚ) = n := by
  norm_num [pyRound]

/-- Python `round` lands within `1/2` of its argument. -/
theorem abs_pyRound_sub_le (q : ℚ) : |(pyRound q : ℚ) - q| ≤ 1/2 := by
  have h0 : ((⌊q⌋ : ℤ) : ℚ) ≤ q := Int.floor_le q
  have h1 : q < (⌊q⌋ : ℚ) + 1 := Int.lt_floor_add_one q
  unfold pyRound
  by_cases hc1 : q - (⌊q⌋ : ℚ) < 1/2
  · rw [if_pos hc1, abs_sub_comm, abs_of_nonneg (by linarith)]
    linarith
  · rw [if_neg hc1]
    by_cases hc2 : (1 : ℚ)/2 < q - (⌊q⌋ : ℚ)
    · rw [if_pos hc2]
      push_cast
      rw [abs_of_nonneg (by linarith)]
      linarith
    · rw [if_neg hc2]
      have he : q - (⌊q⌋ : ℚ) = 1/2 := le_antisymm (not_lt.mp hc2) (not_lt.mp hc1)
      by_cases hc3 : ⌊q⌋ % 2 = 0
      · rw [if_pos hc3, abs_sub_comm, abs_of_nonneg (by linarith)]
        linarith
      · rw [if_neg hc3]
        push_cast
        rw [abs_of_nonneg (by linarith)]
        linarith

/-- Snapping `a` to the grid of pitch `s` moves it by at most `s/2`. -/
theorem abs_pyRound_div_mul_sub_le (s : ℚ) (hs : 0 < s) (a : ℚ) :
    |(pyRound (a / s) : ℚ) * s - a| ≤ s / 2 := by
  have hne : s ≠ 0 := ne_of_gt hs
  have h := abs_pyRound_sub_le (a / s)
  have heq : (pyRound (a / s) : ℚ) * s - a = ((pyRound (a / s) : ℚ) - a / s) * s := by
    field_simp
  rw [heq, abs_mul, abs_of_pos hs]
  calc |(pyRound (a / s) : ℚ) - a / s| * s ≤ 1/2 * s :=
        mul_le_mul_of_nonneg_right h (le_of_lt hs)
    _ = s / 2 := by ring

/-- C3: for every integer grid position `(x, z)` and grid size `s > 0`,
converting to world coordinates and back returns exactly the same
integers: `world_to_grid (grid_to_world g, s), s) = (g.x, g.z)`. -/
theorem claim_C3 (s : ℚ) (hs : 0 < s) (g : GridPosition) :
    (VTTLClient.world_to_grid s (VTTLClient.grid_to_world s g)).x = g.x ∧
    (VTTLClient.world_to_grid s (VTTLClient.grid_to_world s g)).z = g.z := by
  have hne : s ≠ 0 := ne_of_gt hs
  constructor <;>
    simp [VTTLClient.world_to_grid, VTTLClient.grid_to_world,
      mul_div_cancel_right₀ _ hne, pyRound_intCast]

/-- C3 witness: grid position `(3, -1)` at grid size `2` round-trips. -/
theorem claim_C3_witness :
    (0 : ℚ) < 2 ∧
    ((VTTLClient.world_to_grid 2 (VTTLClient.grid_to_world 2 ⟨3, -1, 5, 0⟩)).x = 3 ∧
     (VTTLClient.world_to_grid 2 (VTTLClient.grid_to_world 2 ⟨3, -1, 5, 0⟩)).z = -1) :=
  ⟨by decide, claim_C3 2 (by decide) ⟨3, -1, 5, 0⟩⟩

/-- C8: for every world position `w` and grid size `s > 0`, the grid
round-trip `grid_to_world (world_to_grid w)` moves the x and z
components by at most `s/2` and passes the y component through. -/
theorem claim_C8 (s : ℚ) (hs : 0 < s) (w : W) :
    |(VTTLClient.grid_to_world s (VTTLClient.world_to_grid s w)).x - w.x| ≤ s / 2 ∧
    (VTTLClient.grid_to_world s (VTTLClient.world_to_grid s w)).y = w.y ∧
    |(VTTLClient.grid_to_world s (VTTLClient.world_to_grid s w)).z - w.z| ≤ s / 2 := by
  refine ⟨?_, rfl, ?_⟩
  · exact abs_pyRound_div_mul_sub_le s hs w.x
  · exact abs_pyRound_div_mul_sub_le s hs w.z

/-- C8 witness: world position `(3, 7, -5)` at grid size `2` is moved by
at most `1` in x and z and keeps its y. -/
theorem claim_C8_witness :
    (0 : ℚ) < 2 ∧
    (|(VTTLClient.grid_to_world 2 (VTTLClient.world_to_grid 2 ⟨3, 7, -5⟩)).x - (3 : ℚ)| ≤ 2 / 2 ∧
     (VTTLClient.grid_to_world 2 (VTTLClient.world_to_grid 2 ⟨3, 7, -5⟩)).y = (7 : ℚ) ∧
     |(VTTLClient.grid_to_world 2 (VTTLClient.world_to_grid 2 ⟨3, 7, -5⟩)).z - (-5 : ℚ)| ≤ 2 / 2) :=
  ⟨by decide, claim_C8 2 (by decide) ⟨3, 7, -5⟩⟩

end VTTL

namespace VTTL

/-- C1 counterexample: on a connected client, `create_entity` called with
neither a grid position nor a world position does not fail with an input
error; it sends a create command whose position defaults to `[0, 0, 0]`. -/
theorem claim_C1_counterexample :
    VTTLClient.create_entity connectedState "prop_box" "cube" none none none none =
      .ok ([Send.create_entity "prop_box" "cube" ⟨0, 0, 0⟩ none []], connectedState) := rfl

/-- C1 (amended): when neither a grid position nor a world position is
supplied, `create_entity` does not raise an input error: it defaults the
world position to `[0, 0, 0]` and sends the create command. -/
theorem claim_C1 (st : VTTLClient.ClientState) (h : st.is_connected = true)
    (name template : String) (owner : Option String) (props : Option Props) :
    VTTLClient.create_entity st name template none none owner props =
      .ok ([Send.create_entity name template ⟨0, 0, 0⟩ owner (props.getD [])], st) := by
  simp [VTTLClient.create_entity, VTTLClient.send_message, h]

/-- C1 witness: the amended claim at a concrete connected client. -/
theorem claim_C1_witness :
    connectedState.is_connected = true ∧
    VTTLClient.create_entity connectedState "prop_box" "cube" none none none none =
      .ok ([Send.create_entity "prop_box" "cube" ⟨0, 0, 0⟩ none
             ((none : Option Props).getD [])], connectedState) :=
  ⟨rfl, claim_C1 connectedState rfl "prop_box" "cube" none none⟩

/-- C4: deleting a name absent from the game-state cache returns `False`,
issues no network send, and leaves the client state (and in particular
the cache) unchanged. -/
theorem claim_C4 (st : VTTLClient.ClientState) (name : String)
    (h : VTTLClient.check_entity_exists st name = false) :
    VTTLClient.delete_entity st name = .ok (false, [], st) := by
  simp [VTTLClient.delete_entity, h]

/-- C4 witness: deleting `"nonexistent"` from the sample cache. -/
theorem claim_C4_witness :
    VTTLClient.check_entity_exists sampleState "nonexistent" = false ∧
    VTTLClient.delete_entity sampleState "nonexistent" = .ok (false, [], sampleState) :=
  ⟨by decide, claim_C4 sampleState "nonexistent" (by decide)⟩

/-- C5: `move_entity` with neither a grid position nor a world position
raises `ValueError` synchronously; no message is sent (the `.error`
result carries no sends). -/
theorem claim_C5 (st : VTTLClient.ClientState) (name : String) (animate : Bool) :
    VTTLClient.move_entity st name none none animate =
      .error "ValueError: Either grid_pos or position must be provided" := rfl

/-- C6: a `game_state` or `game_state_update` message replaces the
game-state cache wholesale with the message's payload; any other message
type (`error`, acks, unknown) leaves the client state unchanged. -/
theorem claim_C6 (st : VTTLClient.ClientState) (msgType : String)
    (payload : GameState) :
    ((msgType = "game_state" ∨ msgType = "game_state_update") →
      VTTLClient.handle_message st msgType payload = { st with game_state := payload }) ∧
    (msgType ≠ "game_state" → msgType ≠ "game_state_update" →
      VTTLClient.handle_message st msgType payload = st) := by
  constructor
  · rintro (h | h) <;> simp [VTTLClient.handle_message, h]
  · intro h1 h2
    simp [VTTLClient.handle_message, h1, h2]

/-- C6 witness: a concrete `game_state_update` message replaces the
sample state's cache with the new payload. -/
theorem claim_C6_witness :
    VTTLClient.handle_message sampleState "game_state_update" samplePayload =
      { sampleState with game_state := samplePayload } :=
  (claim_C6 sampleState "game_state_update" samplePayload).1 (Or.inr rfl)

end VTTL

namespace VTTL

/-- On a connected client, deleting a cached name sends exactly one
delete envelope and leaves the state unchanged. -/
theorem delete_entity_present (st : VTTLClient.ClientState) (n : String)
    (hc : st.is_connected = true)
    (hn : VTTLClient.check_entity_exists st n = true) :
    VTTLClient.delete_entity st n = .ok (true, [Send.delete_entity n], st) := by
  simp [VTTLClient.delete_entity, VTTLClient.send_message, hn, hc]

/-- The `clear_scene` loop over cached names sends one delete per
non-excluded name, in cache order, and leaves the state unchanged. -/
theorem clear_scene_loop_spec (st : VTTLClient.ClientState) (excl : List String)
    (hc : st.is_connected = true) :
    ∀ names : List String,
      (∀ n ∈ names, VTTLClient.check_entity_exists st n = true) →
      VTTLClient.clear_scene_loop st names excl =
        ((names.filter fun n => !(excl.any fun p => startswith n p)).map
           Send.delete_entity, st) := by
  intro names
  induction names with
  | nil => intro _; rfl
  | cons n rest ih =>
    intro h
    have hn : VTTLClient.check_entity_exists st n = true := h n (by simp)
    have hrest : ∀ m ∈ rest, VTTLClient.check_entity_exists st m = true := by
      intro m hm
      exact h m (by simp [hm])
    by_cases he : (excl.any fun p => startswith n p) = true
    · simp [VTTLClient.clear_scene_loop, he, ih hrest]
    · rw [Bool.not_eq_true] at he
      simp [VTTLClient.clear_scene_loop, he,
        delete_entity_present st n hc hn, ih hrest]

/-- C2: on a connected client with a well-formed cache (distinct names),
`clear_scene` issues the refresh request followed by exactly one delete
per cached entity whose name does not start with any excluded prefix, in
cache order: exactly one delete for each non-excluded name, none for any
excluded name, and the client state is unchanged. -/
theorem claim_C2 (st : VTTLClient.ClientState) (excl : List String)
    (hc : st.is_connected = true)
    (hnd : (st.game_state.entities.map Prod.fst).Nodup) :
    VTTLClient.clear_scene st excl =
      .ok (true,
        Send.get_game_state ::
          (((st.game_state.entities.map Prod.fst).filter
              fun n => !(excl.any fun p => startswith n p)).map Send.delete_entity),
        st) ∧
    (∀ n ∈ st.game_state.entities.map Prod.fst,
      (excl.any fun p => startswith n p) = false →
      (((st.game_state.entities.map Prod.fst).filter
          fun n => !(excl.any fun p => startswith n p)).map Send.delete_entity).count
        (Send.delete_entity n) = 1) ∧
    (∀ n : String, (excl.any fun p => startswith n p) = true →
      (((st.game_state.entities.map Prod.fst).filter
          fun n => !(excl.any fun p => startswith n p)).map Send.delete_entity).count
        (Send.delete_entity n) = 0) := by
  have hinj : Function.Injective Send.delete_entity := by
    intro a b hab
    rw [Send.delete_entity.injEq] at hab
    exact hab
  refine ⟨?_, ?_, ?_⟩
  · have hloop := clear_scene_loop_spec st excl hc
      (st.game_state.entities.map Prod.fst) (fun n hn => by
        simpa [VTTLClient.check_entity_exists] using List.elem_eq_true_of_mem hn)
    simp [VTTLClient.clear_scene, VTTLClient.get_game_state,
      VTTLClient.send_message, hc, hloop]
  · intro n hmem hno
    rw [List.count_map_of_injective _ Send.delete_entity hinj]
    exact List.count_eq_one_of_mem (hnd.filter _)
      (List.mem_filter.mpr ⟨hmem, by simp [hno]⟩)
  · intro n hyes
    rw [List.count_map_of_injective _ Send.delete_entity hinj]
    rw [List.count_eq_zero]
    intro hmem
    have := (List.mem_filter.mp hmem).2
    simp [hyes] at this

/-- C2 witness: the spec's example — excluding prefix `cam_` on the cache
`{cam_main, prop_a, mini_b}` deletes exactly `prop_a` and `mini_b` and
preserves `cam_main`. -/
theorem claim_C2_witness :
    VTTLClient.clear_scene sampleState ["cam_"] =
      .ok (true,
        [Send.get_game_state, Send.delete_entity "prop_a",
         Send.delete_entity "mini_b"],
        sampleState) := by
  have h := (claim_C2 sampleState ["cam_"] rfl (by decide)).1
  exact h.trans (by rfl)

end VTTL

namespace VTTL

/-- C9: for every connected client, name, position and cache, the
collision probe returns exactly `{"collisions": [], "onTable": true}` —
a fixed stub independent of its inputs and of the cache — and
consequently `find_safe_position` returns the preferred position for
every scene state, connected or not. -/
theorem claim_C9 (st : VTTLClient.ClientState) (name : String) (pos : W)
    (h : st.is_connected = true)
    (sst : SceneController.SCState) (nm : String)
    (p : SceneController.Position) (sr : ℝ) :
    VTTLClient.check_collisions st name pos =
      .ok ([Send.check_collisions name pos], ⟨[], true⟩, st) ∧
    (SceneController.find_safe_position sst nm p sr).2 = some p := by
  constructor
  · simp [VTTLClient.check_collisions, VTTLClient.send_message, h]
  · cases hc : sst.connected <;>
      simp [SceneController.find_safe_position, SceneController.check_collisions, hc]

/-- C9 witness: the probe stub and the safe-position search at concrete
inputs. -/
theorem claim_C9_witness :
    VTTLClient.check_collisions sampleState "mini_b" ⟨1, 0, 1⟩ =
      .ok ([Send.check_collisions "mini_b" ⟨1, 0, 1⟩], ⟨[], true⟩, sampleState) ∧
    (SceneController.find_safe_position sampleSCState "a" ⟨1, 1/2, 1, 0⟩ 2).2 =
      some ⟨1, 1/2, 1, 0⟩ :=
  claim_C9 sampleState "mini_b" ⟨1, 0, 1⟩ rfl sampleSCState "a" ⟨1, 1/2, 1, 0⟩ 2

/-- C10: for a name absent from the orchestration layer's local registry,
`SceneController.delete_entity`, `move_entity` and `rotate_entity` all
raise `ValueError` before any network send, while the command API's
`VTTLClient.delete_entity` tolerates an unknown name by returning a
negative result with no send. -/
theorem claim_C10 (sst : SceneController.SCState) (name : String)
    (h : (sst.entities.map Prod.fst).contains name = false)
    (pos rot : SceneController.Position) (an cc : Bool)
    (cst : VTTLClient.ClientState)
    (h2 : VTTLClient.check_entity_exists cst name = false) :
    SceneController.delete_entity sst name =
      .error ("ValueError: Entity " ++ name ++ " not found") ∧
    SceneController.move_entity sst name pos an cc =
      .error ("ValueError: Entity " ++ name ++ " not found") ∧
    SceneController.rotate_entity sst name rot an =
      .error ("ValueError: Entity " ++ name ++ " not found") ∧
    VTTLClient.delete_entity cst name = .ok (false, [], cst) := by
  refine ⟨?_, ?_, ?_, ?_⟩
  · unfold SceneController.delete_entity
    rw [if_pos h]
  · unfold SceneController.move_entity
    rw [if_pos h]
  · unfold SceneController.rotate_entity
    rw [if_pos h]
  · simp [VTTLClient.delete_entity, h2]

/-- C10 witness: the name `ghost` is absent from both registries. -/
theorem claim_C10_witness :
    SceneController.delete_entity sampleSCState "ghost" =
      .error ("ValueError: Entity " ++ "ghost" ++ " not found") ∧
    SceneController.move_entity sampleSCState "ghost" ⟨0, 0, 0, 0⟩ true true =
      .error ("ValueError: Entity " ++ "ghost" ++ " not found") ∧
    SceneController.rotate_entity sampleSCState "ghost" ⟨0, 0, 0, 0⟩ true =
      .error ("ValueError: Entity " ++ "ghost" ++ " not found") ∧
    VTTLClient.delete_entity sampleState "ghost" = .ok (false, [], sampleState) :=
  claim_C10 sampleSCState "ghost" (by decide) ⟨0, 0, 0, 0⟩ ⟨0, 0, 0, 0⟩ true true
    sampleState (by decide)

end VTTL

namespace VTTL

/-- Updating one entity's position preserves the registry's key list. -/
theorem update_position_keys (reg : SceneController.Registry) (nm : String)
    (p : SceneController.Position) :
    (SceneController.update_position reg nm p).map Prod.fst = reg.map Prod.fst := by
  induction reg with
  | nil => rfl
  | cons hd tl ih =>
    by_cases h : hd.1 = nm <;>
      simp [SceneController.update_position, h] <;>
      simpa [SceneController.update_position] using ih

/-- A registered entity is moved by the orchestration layer with one
collision probe followed by one move envelope, and an optimistic
registry update. -/
theorem sc_move_entity_ok (sst : SceneController.SCState) (nm : String)
    (pos : SceneController.Position) (an : Bool)
    (hc : sst.connected = true)
    (hm : (sst.entities.map Prod.fst).contains nm = true) :
    SceneController.move_entity sst nm pos an true =
      .ok ([SceneController.SCSend.check_collisions nm pos,
            SceneController.SCSend.move_entity nm pos an],
           { sst with entities := SceneController.update_position sst.entities nm pos }) := by
  unfold SceneController.move_entity
  rw [if_neg (by rw [hm]; exact fun hff => Bool.noConfusion hff)]
  simp [SceneController.check_collisions, hc]

/-- Invariant of the `arrange_in_circle` loop: with every name
registered, the loop succeeds, its move commands send entity `j`
(0-based, counted from the loop's start index) to the polar target for
index `j`, and the registry keys are preserved. -/
theorem arrange_loop_spec (r : ℝ) (c : SceneController.Position) (an : Bool) (n : ℕ) :
    ∀ (names : List String) (sst : SceneController.SCState) (i : ℕ),
      sst.connected = true →
      (∀ nm ∈ names, (sst.entities.map Prod.fst).contains nm = true) →
      ∃ sends sst',
        SceneController.arrange_in_circle_loop sst names r c an i n = .ok (sends, sst') ∧
        moves_of sends =
          (List.enumFrom i names).map (fun q => (q.2, circle_target c r q.1 n)) ∧
        sst'.connected = true ∧
        sst'.entities.map Prod.fst = sst.entities.map Prod.fst := by
  intro names
  induction names with
  | nil =>
    intro sst i hc _
    exact ⟨[], sst, rfl, rfl, hc, rfl⟩
  | cons nm rest ih =>
    intro sst i hc hmem
    have hm : (sst.entities.map Prod.fst).contains nm = true := hmem nm (by simp)
    have hstep := sc_move_entity_ok sst nm (circle_target c r i n) an hc hm
    rw [circle_target] at hstep
    have hc1 : ({ sst with
        entities := SceneController.update_position sst.entities nm
          (circle_target c r i n) } : SceneController.SCState).connected = true := hc
    have hmem1 : ∀ m ∈ rest,
        ((SceneController.update_position sst.entities nm
            (circle_target c r i n)).map Prod.fst).contains m = true := by
      intro m hmm
      rw [update_position_keys]
      exact hmem m (by simp [hmm])
    obtain ⟨s2, sst2, hrec, hmoves, hc2, hkeys⟩ :=
      ih { sst with
             entities := SceneController.update_position sst.entities nm
               (circle_target c r i n) } (i + 1) hc1 hmem1
    refine ⟨[SceneController.SCSend.check_collisions nm (circle_target c r i n),
             SceneController.SCSend.move_entity nm (circle_target c r i n) an] ++ s2,
            sst2, ?_, ?_, hc2, ?_⟩
    · rw [SceneController.arrange_in_circle_loop]
      rw [circle_target] at hrec ⊢
      rw [hstep]
      simp only [hrec]
    · simp [moves_of, List.enumFrom] at hmoves ⊢
      exact hmoves
    · rw [hkeys]
      exact update_position_keys sst.entities nm (circle_target c r i n)

/-- C7: for a non-empty list of `n` registered names on a connected
controller, `arrange_in_circle` succeeds and its `i`-th move command
(0-based) sends the `i`-th entity to
`(c.x + r*cos((i/n)*2*pi), c.y, c.z + r*sin((i/n)*2*pi))`, i.e. to the
claim's `(c.x + r*cos(2*pi*i/n), c.y, c.z + r*sin(2*pi*i/n))`. -/
theorem claim_C7 (sst : SceneController.SCState) (names : List String)
    (r : ℝ) (c : SceneController.Position) (an : Bool)
    (hc : sst.connected = true)
    (hmem : ∀ nm ∈ names, (sst.entities.map Prod.fst).contains nm = true)
    (hne : names ≠ []) :
    ∃ sends sst',
      SceneController.arrange_in_circle sst names r c an = .ok (true, sends, sst') ∧
      moves_of sends =
        (List.enumFrom 0 names).map
          (fun q => (q.2, circle_target c r q.1 names.length)) := by
  obtain ⟨sends, sst', hloop, hmoves, _, _⟩ :=
    arrange_loop_spec r c an names.length names sst 0 hc hmem
  have hempty : names.isEmpty = false := by
    cases names with
    | nil => exact absurd rfl hne
    | cons a l => rfl
  refine ⟨sends, sst', ?_, hmoves⟩
  simp [SceneController.arrange_in_circle, hempty, hloop]

/-- C7 witness: four entities `a, b, c, d`, radius `4`, center
`(0, 0.5, 0)`: entity `i` is moved to
`(4*cos((i/4)*2*pi), 0.5, 4*sin((i/4)*2*pi))`. -/
theorem claim_C7_witness :
    ∃ sends sst',
      SceneController.arrange_in_circle sampleSCState ["a", "b", "c", "d"] 4
          ⟨0, 1/2, 0, 0⟩ true = .ok (true, sends, sst') ∧
      moves_of sends =
        (List.enumFrom 0 ["a", "b", "c", "d"]).map
          (fun q => (q.2, circle_target ⟨0, 1/2, 0, 0⟩ 4 q.1 4)) :=
  claim_C7 sampleSCState ["a", "b", "c", "d"] 4 ⟨0, 1/2, 0, 0⟩ true rfl
    (by decide) (by decide)

end VTTL
